import Mathlib

/-!
Shallow embedding of the LwM2M client registry module `src/big_lwm2m.py`
(Python 2).  The module defines a typed value cell (`DataResource.value`
property), resource classes (`ExecuteResource`, `ReadResource`,
`WriteResource`, `ReadWriteResource`), `Instance`, `Object` and the
singleton `Client`, together with the callback entry points invoked by the
external wakaama engine.

Modelling conventions:
* Python mutation is made explicit: every operation returns the updated
  record; operations that can raise also return an `Option PyError`
  (`none` = no exception).  When a Python method raises before mutating,
  the returned state equals the input state, exactly as in the source.
* Python `float` is modelled as an exact rational (`Rat`).  No claim under
  consideration depends on IEEE rounding, float formatting, or the
  `inf`/`nan`/exponent forms of `float(str)`; those corners are noted at
  the definitions that approximate them.
* Change notifications are the calls the value setter makes to
  `lwm2m_client.ResourceValChanged(object_id, instance_id, resource_id)`;
  the setter returns the list of such calls (`List Notif`).
  (`Client.ResourceValChanged` itself forwards to the engine when one is
  attached and silently ignores the call otherwise.)
* Python dicts keyed by integer ids are association lists with
  first-match lookup; keys are inserted fresh (the code always checks
  `has_key` before inserting), so insertion is an append.
-/

set_option autoImplicit false

namespace Lwm2m

/-- Python exception classes raised by the embedded code paths:
`TypeError` (spec `TypeMismatch`/`InvalidKind`), `KeyError`
(spec `DuplicateId`/`NotFound`), `ValueError` (spec `InvalidAddress`). -/
inductive PyError
  | typeError
  | keyError
  | valueError
  deriving DecidableEq

/-- Wire-level data types (`wakaama_client_ext.Lwm2mDataType`).  `tStr`,
`tInt`, `tFloat`, `tBool`, `tBytes`, `tUndef` embed the source module
constants STRING, INT, FLOAT, BOOL, the opaque-bytes constant, and NONE;
the source's TIME is the very same enum member as INT. -/
inductive Lwm2mDataType
  | tStr | tInt | tFloat | tBool | tBytes | tUndef
  deriving DecidableEq

/-- Python runtime values that can appear as stored resource values or as
assignment candidates: `str`, `int`, `float` (exact rational model),
`bool`, `bytearray` (list of byte values), and `None`. -/
inductive PyVal
  | vstr (s : String)
  | vint (n : Int)
  | vfloat (q : Rat)
  | vbool (b : Bool)
  | vbytes (bs : List Nat)
  | vnone
  deriving DecidableEq

/-- Decimal digit test on characters. -/
def isDig (c : Char) : Bool := 48 ≤ c.toNat && c.toNat ≤ 57

/-- Value of one decimal digit character, `none` for non-digits. -/
def charDigit (c : Char) : Option Nat :=
  if isDig c then some (c.toNat - 48) else none

/-- Left-to-right accumulation of a decimal digit string (Horner form);
fails on the first non-digit character. -/
def digitsAux : Nat → List Char → Option Nat
  | acc, [] => some acc
  | acc, c :: cs =>
    match charDigit c with
    | none => none
    | some d => digitsAux (10 * acc + d) cs

/-- Parses a nonempty all-digit character list as a natural number. -/
def digitsToNat (cs : List Char) : Option Nat :=
  match cs with
  | [] => none
  | _ :: _ => digitsAux 0 cs

/-- Python 2 `int(str)`: optional sign followed by decimal digits; the
empty string fails.  (The source's `int()` additionally tolerates
surrounding whitespace; no claim depends on that corner.) -/
def parsePyIntChars : List Char → Option Int
  | [] => none
  | c :: rest =>
    if c = '-' then (digitsToNat rest).map fun n : Nat => -(n : Int)
    else if c = '+' then (digitsToNat rest).map fun n : Nat => (n : Int)
    else (digitsToNat (c :: rest)).map fun n : Nat => (n : Int)

/-- Accumulated value of an all-digit character list (callers check
digit-ness separately). -/
def valDigits (cs : List Char) : Nat :=
  cs.foldl (fun a c => 10 * a + (c.toNat - 48)) 0

/-- Python 2 `float(str)` on an unsigned literal: digits with an optional
decimal point (`"5"`, `"5."`, `".5"`, `"1.25"`).  Exponent notation and
`inf`/`nan` are not modelled; no claim depends on them. -/
def parsePyFloatPos (cs : List Char) : Option Rat :=
  let ip := cs.takeWhile isDig
  let rest := cs.dropWhile isDig
  match rest with
  | [] => if ip.isEmpty then none else some ((valDigits ip : Nat) : Rat)
  | '.' :: frac =>
    if frac.all isDig && !(ip.isEmpty && frac.isEmpty) then
      some ((valDigits ip : Rat) + (valDigits frac : Rat) / ((10 : Rat) ^ frac.length))
    else none
  | _ => none

/-- Python 2 `float(str)`: optional sign then an unsigned float literal. -/
def parsePyFloatChars : List Char → Option Rat
  | '-' :: rest => (parsePyFloatPos rest).map Neg.neg
  | '+' :: rest => parsePyFloatPos rest
  | cs => parsePyFloatPos cs

/-- Decimal digit characters of a natural number, most significant first. -/
def natDec (n : Nat) : List Char :=
  if h : n < 10 then [Char.ofNat (48 + n)]
  else natDec (n / 10) ++ [Char.ofNat (48 + n % 10)]
termination_by n
decreasing_by exact Nat.div_lt_self (by omega) (by omega)

/-- Decimal character rendering of an integer (Python `str(int)`). -/
def intDecChars (i : Int) : List Char :=
  if i < 0 then '-' :: natDec i.natAbs else natDec i.toNat

/-- Python `str(int)`. -/
def pyStrOfInt (i : Int) : String := String.mk (intDecChars i)

/-- Python `str(float)`.  Exact for integral floats (`"2.0"`); for
non-integral rationals the rendering is an abstraction (Python prints a
shortest decimal form) — no claim depends on it. -/
def pyStrOfFloat (q : Rat) : String :=
  if q.den = 1 then String.mk (intDecChars q.num) ++ ".0"
  else String.mk (intDecChars q.num) ++ "." ++ String.mk (natDec q.den)

/-- Python 2 `str(x)` for the modelled values.  `str(bytearray)` yields the
raw bytes as characters. -/
def pyStrOfVal : PyVal → String
  | .vstr s => s
  | .vint n => pyStrOfInt n
  | .vfloat q => pyStrOfFloat q
  | .vbool b => if b then "True" else "False"
  | .vbytes bs => String.mk (bs.map Char.ofNat)
  | .vnone => "None"

/-- Python truthiness of the modelled values (used by `bool(x)`). -/
def pyTruthy : PyVal → Bool
  | .vstr s => !s.isEmpty
  | .vint n => n != 0
  | .vfloat q => q != 0
  | .vbool b => b
  | .vbytes bs => !bs.isEmpty
  | .vnone => false

/-- The coercion `self._data_type(set_val)` performed by the value setter,
where `_data_type` is `type_lookup[data_type]` from `DataResource.__init__`
(`str`, `int`, `float`, `bool`, `bytearray`, or the value `None` for the
undefined type — calling `None(x)` always raises, hence `tUndef ↦ none`).
`none` models the raised exception (caught by the setter's bare `except`). -/
def coerce : Lwm2mDataType → PyVal → Option PyVal
  | .tStr, v => some (.vstr (pyStrOfVal v))
  | .tInt, v =>
    match v with
    | .vint n => some (.vint n)
    | .vbool b => some (.vint (if b then 1 else 0))
    | .vfloat q => some (.vint (Int.tdiv q.num (q.den : Int)))
    | .vstr s => (parsePyIntChars s.data).map .vint
    | .vbytes _ => none
    | .vnone => none
  | .tFloat, v =>
    match v with
    | .vfloat q => some (.vfloat q)
    | .vint n => some (.vfloat (n : Rat))
    | .vbool b => some (.vfloat (if b then 1 else 0))
    | .vstr s => (parsePyFloatChars s.data).map .vfloat
    | .vbytes _ => none
    | .vnone => none
  | .tBool, v => some (.vbool (pyTruthy v))
  | .tBytes, v =>
    match v with
    | .vbytes bs => some (.vbytes bs)
    | .vstr s => some (.vbytes (s.data.map Char.toNat))
    | .vint n => if 0 ≤ n then some (.vbytes (List.replicate n.toNat 0)) else none
    | .vbool b => some (.vbytes (List.replicate (if b then 1 else 0) 0))
    | .vfloat _ => none
    | .vnone => none
  | .tUndef, _ => none

/-- Runtime-type check: does a stored value's runtime type match the
resource's data type?  (`type_lookup` image membership.) -/
def typeMatches : Lwm2mDataType → PyVal → Bool
  | .tStr, .vstr _ => true
  | .tInt, .vint _ => true
  | .tFloat, .vfloat _ => true
  | .tBool, .vbool _ => true
  | .tBytes, .vbytes _ => true
  | _, _ => false

/-- State of a `DataResource` (the base of `ReadResource`, `WriteResource`
and `ReadWriteResource`): the back-reference address fields (set by
`__init__` to `None`, stamped at registration), the resource id, the fixed
data type, and the private `__value` cell (initially Python `None`). -/
structure DataResource where
  object_id : Option Int
  instance_id : Option Int
  id : Int
  data_type : Lwm2mDataType
  value : PyVal
  deriving DecidableEq

/-- Python truthiness of an id field holding `None` or an `int`
(the test `self.instance_id and self.object_id` in the value setter). -/
def truthyId : Option Int → Bool
  | none => false
  | some n => n != 0

/-- Arguments of one `Client.ResourceValChanged` call:
`(object_id, instance_id, resource_id)`. -/
abbrev Notif := Int × Int × Int

/-- The `DataResource.value` property setter: coerce the candidate with
`self._data_type(...)` (any exception becomes `TypeError`, state
untouched); if the coerced value differs from `self.__value` and both
`self.instance_id` and `self.object_id` are truthy, call
`lwm2m_client.ResourceValChanged(object_id, instance_id, id)`; finally
store the coerced value. -/
def value_setter (r : DataResource) (set_val : PyVal) :
    DataResource × Option PyError × List Notif :=
  match coerce r.data_type set_val with
  | none => (r, some PyError.typeError, [])
  | some c =>
    let changed : Bool := decide (c ≠ r.value)
    let ns : List Notif :=
      if changed && truthyId r.instance_id && truthyId r.object_id then
        [(r.object_id.getD 0, r.instance_id.getD 0, r.id)]
      else []
    ({ r with value := c }, none, ns)

/-- The concrete resource classes.  `ResCls.dataResource` is the abstract
base `DataResource` itself; the other three are its subclasses.
(`ExecuteResource` is a separate class, not a `DataResource` subclass.) -/
inductive ResCls
  | dataResource | readResource | writeResource | readWriteResource
  deriving DecidableEq

/-- Construction of a data resource: `DataResource.__new__` rejects the
abstract base class with `TypeError`; `DataResource.__init__` then sets the
address fields to `None`, records the id and data type, initialises
`self.__value = None` and runs `self.value = init_val` through the typed
setter (whose notification guard is vacuous here since the address fields
are `None`).  `cls` records which concrete class was instantiated. -/
def DataResource.new (cls : ResCls) (resource_id : Int) (data_type : Lwm2mDataType)
    (init_val : PyVal) : Except PyError (ResCls × DataResource) :=
  if cls = ResCls.dataResource then .error PyError.typeError
  else
    let r0 : DataResource :=
      { object_id := none, instance_id := none, id := resource_id,
        data_type := data_type, value := PyVal.vnone }
    match value_setter r0 init_val with
    | (_, some e, _) => .error e
    | (r1, none, _) => .ok (cls, r1)

/-- State of an `ExecuteResource`: just its id (its `_wakaama_type` is the
undefined type and it carries no value cell). -/
structure ExecResource where
  id : Int
  deriving DecidableEq

/-- A registered resource: one of the four recognized kinds.  The three
data kinds share the `DataResource` state. -/
inductive Resource
  | exec (e : ExecResource)
  | readR (d : DataResource)
  | writeR (d : DataResource)
  | readWriteR (d : DataResource)
  deriving DecidableEq

/-- Resource id (`res.id`). -/
def Resource.rid : Resource → Int
  | .exec e => e.id
  | .readR d => d.id
  | .writeR d => d.id
  | .readWriteR d => d.id

/-- The `_wakaama_type` attribute. -/
def Resource.wakaamaType : Resource → Lwm2mDataType
  | .exec _ => Lwm2mDataType.tUndef
  | .readR d => d.data_type
  | .writeR d => d.data_type
  | .readWriteR d => d.data_type

/-- Python `isinstance(res, DataResource)`. -/
def Resource.isData : Resource → Bool
  | .exec _ => false
  | _ => true

/-- The stamped `object_id` attribute (`none` for execute resources, which
have no such attribute in the claims' scope). -/
def Resource.objectId : Resource → Option Int
  | .exec _ => none
  | .readR d => d.object_id
  | .writeR d => d.object_id
  | .readWriteR d => d.object_id

/-- The stamped `instance_id` attribute. -/
def Resource.instanceId : Resource → Option Int
  | .exec _ => none
  | .readR d => d.instance_id
  | .writeR d => d.instance_id
  | .readWriteR d => d.instance_id

/-- The address-stamping assignments `res.object_id = ...;
res.instance_id = ...` performed on data resources only
(`isinstance(res, DataResource)` guard). -/
def stampRes (oid iid : Int) : Resource → Resource
  | .exec e => .exec e
  | .readR d => .readR { d with object_id := some oid, instance_id := some iid }
  | .writeR d => .writeR { d with object_id := some oid, instance_id := some iid }
  | .readWriteR d => .readWriteR { d with object_id := some oid, instance_id := some iid }

/-- Presence of a `_read_callback` attribute (`ReadResource` and
`ReadWriteResource`). -/
def hasReadCb : Resource → Bool
  | .readR _ => true
  | .readWriteR _ => true
  | _ => false

/-- Presence of a `_write_callback` attribute (`WriteResource` and
`ReadWriteResource`). -/
def hasWriteCb : Resource → Bool
  | .writeR _ => true
  | .readWriteR _ => true
  | _ => false

/-- Presence of an `_execute_callback` attribute (`ExecuteResource`). -/
def hasExecCb : Resource → Bool
  | .exec _ => true
  | _ => false

/-- Association-list lookup by integer key (Python dict access). -/
def alookup {β : Type} : List (Int × β) → Int → Option β
  | [], _ => none
  | (k, v) :: rest, key => if key = k then some v else alookup rest key

/-- Python `dict.has_key`. -/
def hasKey {β : Type} (l : List (Int × β)) (key : Int) : Bool :=
  (alookup l key).isSome

/-- Registration candidates handed to `Instance.register`: either one of
the four recognized resource classes, or some other object (the
`isinstance(res, base_classes)` failure case). -/
inductive RegCandidate
  | res (r : Resource)
  | notRes
  deriving DecidableEq

/-- State of an `Instance`: its id and the `_resources` dict. -/
structure LwInstance where
  id : Int
  resources : List (Int × Resource)
  deriving DecidableEq

/-- The source's `Instance.register(resources)` loop: for each element in
order, raise `TypeError` if it is not one of the four resource classes,
raise `KeyError` if its id is already a key of `self._resources`, else
insert it; an exception aborts the loop but earlier insertions persist
(the dict is mutated in place).  Returns the final dict state and the
raised exception, if any. -/
def LwInstance.register : LwInstance → List RegCandidate → LwInstance × Option PyError
  | inst, [] => (inst, none)
  | inst, RegCandidate.notRes :: _ => (inst, some PyError.typeError)
  | inst, RegCandidate.res r :: rest =>
    if hasKey inst.resources r.rid then (inst, some PyError.keyError)
    else LwInstance.register { inst with resources := inst.resources ++ [(r.rid, r)] } rest

/-- State of an `Object`: its id, optional name, the optional
`default_instance_cls` factory (instantiating the class is applying the
function), and the `_instances` dict. -/
structure LwObject where
  id : Int
  name : String
  default_instance_cls : Option (Int → LwInstance)
  instances : List (Int × LwInstance)

/-- Registration candidates handed to `Object.register`. -/
inductive ObjRegCandidate
  | inst (i : LwInstance)
  | notInst

/-- The source's `Object.register(instances)` loop: `TypeError` for a
non-`Instance` element, `KeyError` for a duplicate instance id, else
insert — per element, earlier insertions persisting on failure.  Note that
this function does not touch the contained resources (no address
stamping). -/
def LwObject.register : LwObject → List ObjRegCandidate → LwObject × Option PyError
  | obj, [] => (obj, none)
  | obj, ObjRegCandidate.notInst :: _ => (obj, some PyError.typeError)
  | obj, ObjRegCandidate.inst i :: rest =>
    if hasKey obj.instances i.id then (obj, some PyError.keyError)
    else LwObject.register { obj with instances := obj.instances ++ [(i.id, i)] } rest

/-- Address stamping of one instance's resources:
`for res in inst: if isinstance(res, DataResource): res.object_id = oid;
res.instance_id = iid`. -/
def stampInstance (oid iid : Int) (inst : LwInstance) : LwInstance :=
  { inst with resources := inst.resources.map fun p => (p.1, stampRes oid iid p.2) }

/-- Address stamping of a whole object as done by `Client._register`:
`for inst in obj: for res in inst: ...` with `res.instance_id = inst.id`
(the instance's own id attribute). -/
def stampObject (obj : LwObject) : LwObject :=
  { obj with instances := obj.instances.map fun p => (p.1, stampInstance obj.id p.2.id p.2) }

/-- One entry of the snapshot built by `Object._wakaama_resources`: the
resource id, its `_wakaama_type`, and which of the read/write/execute
callback attributes are present. -/
abbrev SnapEntry := Int × Lwm2mDataType × Bool × Bool × Bool

/-- The snapshot dict `Object._wakaama_resources(instance)` hands to the
engine, one entry per resource of the instance. -/
def wakaamaResources (inst : LwInstance) : List SnapEntry :=
  inst.resources.map fun p => (p.1, p.2.wakaamaType, hasReadCb p.2, hasWriteCb p.2, hasExecCb p.2)

/-- The engine-facing create callback `Object.create_callback(instance_id)`
for an object whose create path is the default-instance factory (no custom
`create` method defined — the claims under consideration quantify over
such objects).  Mirrors the source: return `None` if the id is already
present; otherwise build the instance with the factory; register it
through `self.register([new_instance])` inside `try/except: pass`
(tolerated failure leaves the dict unchanged); stamp the new instance's
data resources with `(self.id, instance_id)` — in Python this mutates the
very object just inserted, so the map entry carries the stamped state —
and return the snapshot. -/
def LwObject.create_callback (obj : LwObject) (instance_id : Int) :
    LwObject × Option (List SnapEntry) :=
  if hasKey obj.instances instance_id then (obj, none)
  else
    match obj.default_instance_cls with
    | none => (obj, none)
    | some f =>
      let newInst := f instance_id
      let stamped := stampInstance obj.id instance_id newInst
      let instances1 :=
        if hasKey obj.instances newInst.id then obj.instances
        else obj.instances ++ [(newInst.id, stamped)]
      ({ obj with instances := instances1 }, some (wakaamaResources stamped))

/-- The engine-facing delete callback `Object.delete_callback(id)` (custom
`delete` handlers are side-effect-only and not modelled): delete the map
entry, returning `True` on success and `False` when the id was absent. -/
def LwObject.delete_callback (obj : LwObject) (iid : Int) : LwObject × Bool :=
  if hasKey obj.instances iid then
    ({ obj with instances := obj.instances.filter fun p => ¬(p.1 = iid) }, true)
  else (obj, false)

/-- State of the singleton `Client`: the `my_objects` dict. -/
structure Client where
  my_objects : List (Int × LwObject)

/-- Registration candidates handed to `Client._register`. -/
inductive ClientRegCandidate
  | obj (o : LwObject)
  | notObj

/-- The source's `Client._register(objects)` loop (after the
single-object-to-list normalisation): `TypeError` for a non-`Object`
element, `KeyError` for a duplicate object id; otherwise stamp every data
resource of the object with `(obj.id, inst.id)` and insert the object.
Earlier iterations persist when a later element raises. -/
def Client.reg : Client → List ClientRegCandidate → Client × Option PyError
  | c, [] => (c, none)
  | c, ClientRegCandidate.notObj :: _ => (c, some PyError.typeError)
  | c, ClientRegCandidate.obj o :: rest =>
    if hasKey c.my_objects o.id then (c, some PyError.keyError)
    else Client.reg { c with my_objects := c.my_objects ++ [(o.id, stampObject o)] } rest

/-- Python `"s".split("/")` on character lists: splits at every slash,
keeping empty groups (so `"".split("/") = [""]`). -/
def splitSlash : List Char → List (List Char)
  | [] => [[]]
  | c :: rest =>
    let r := splitSlash rest
    if c = '/' then [] :: r
    else
      match r with
      | [] => [[c]]
      | g :: gs => (c :: g) :: gs

/-- Python `uri.strip("/")`: removes every leading and trailing slash. -/
def stripSlashes (cs : List Char) : List Char :=
  ((cs.dropWhile fun c => c = '/').reverse.dropWhile fun c => c = '/').reverse

/-- Python `map(int, groups)`: applies the `int()` parser to every group;
a failing `int()` raises `ValueError`, modelled as an overall `none`. -/
def mapPyInt : List (List Char) → Option (List Int)
  | [] => some []
  | g :: gs =>
    match parsePyIntChars g, mapPyInt gs with
    | some v, some vs => some (v :: vs)
    | _, _ => none

/-- The parsing part of `Client.get_resource`:
`uri.strip("/")`, then `map(int, uri.split("/"))` (a failing `int()`
raises `ValueError`), then the 3-tuple unpacking (wrong arity raises
`ValueError`). -/
def parseUri (uri : String) : Except PyError (Int × Int × Int) :=
  match mapPyInt (splitSlash (stripSlashes uri.data)) with
  | none => .error PyError.valueError
  | some ids =>
    match ids with
    | [o, i, r] => .ok (o, i, r)
    | _ => .error PyError.valueError

/-- `Client.get_resource(uri)`: parse the URI, then
`self.my_objects[obj_id][inst_id][res_id]` — each level raising `KeyError`
on a missing id (`Object.__getitem__` and `Instance.__getitem__` re-raise
`KeyError` with a message). -/
def Client.get_resource (c : Client) (uri : String) : Except PyError Resource :=
  match parseUri uri with
  | .error e => .error e
  | .ok (oid, iid, rid) =>
    match alookup c.my_objects oid with
    | none => .error PyError.keyError
    | some obj =>
      match alookup obj.instances iid with
      | none => .error PyError.keyError
      | some inst =>
        match alookup inst.resources rid with
        | none => .error PyError.keyError
        | some r => .ok r

/-- `ReadResource._read_callback`: when the concrete class supplies a
custom `read` hook (`type(self) is not ReadResource`), call it, store the
returned value through the typed `value` setter, and return `self.value`;
with no hook, return the stored value unchanged.  The hook is modelled as
a function of the resource state; a raised `TypeError` from the setter
propagates (fourth component `none` = no value returned).  Result:
(final state, raised error, notifications emitted, returned value). -/
def read_callback (r : DataResource) (hook : Option (DataResource → PyVal)) :
    DataResource × Option PyError × List Notif × Option PyVal :=
  match hook with
  | none => (r, none, [], some r.value)
  | some h =>
    match value_setter r (h r) with
    | (r1, some e, ns) => (r1, some e, ns, none)
    | (r1, none, ns) => (r1, none, ns, some r1.value)

/-- `WriteResource._write_callback(write_val)`: `ret_val = True`; when the
concrete class supplies a custom boolean `write` hook
(`type(self) is not WriteResource`), `ret_val = self.write(write_val)`;
if `ret_val` is truthy, `self.value = write_val` through the typed setter.
Result: (final state, raised error, notifications emitted). -/
def write_callback (r : DataResource) (hook : Option (PyVal → Bool)) (write_val : PyVal) :
    DataResource × Option PyError × List Notif :=
  let ret_val : Bool :=
    match hook with
    | none => true
    | some h => h write_val
  if ret_val then value_setter r write_val else (r, none, [])

/-- Canonical decimal URI characters
`str(a) + "/" + str(b) + "/" + str(c)` for an address triple. -/
def uriChars (a b c : Int) : List Char :=
  intDecChars a ++ ('/' :: (intDecChars b ++ ('/' :: intDecChars c)))

/-- Test fixture: a one-resource instance holding an integer read
resource, as a default-instance factory would build it. -/
def fixFactory : Int → LwInstance :=
  fun j => ⟨j, [(4, Resource.readR ⟨none, none, 4, Lwm2mDataType.tInt, PyVal.vint 7⟩)]⟩

/-- Test fixture: an object with a default-instance factory and no
instances yet. -/
def fixObj : LwObject := ⟨3323, "PressureObject", some fixFactory, []⟩

/-- Test fixture: a registry candidate object without a factory, holding
one instance with one unstamped data resource. -/
def fixRegObj : LwObject := ⟨9, "", none, [(2, fixFactory 2)]⟩

/-- Test fixture: a client with object 1 → instance 1 → resource 0
registered, mirroring the spec's resolve example. -/
def fixClient : Client :=
  ⟨[(1, ⟨1, "", none, [(1, ⟨1, [(0, Resource.readR ⟨some 1, some 1, 0, Lwm2mDataType.tInt, PyVal.vint 123⟩)]⟩)]⟩)]⟩

/-- Test fixture: a write hook that rejects every candidate. -/
def rejectHook : PyVal → Bool := fun _ => false

/-- Test fixture: a read hook returning the integer 42. -/
def answerHook : DataResource → PyVal := fun _ => PyVal.vint 42

/-! Helper lemmas: decimal rendering round-trips through the Python
`int()` model, and slash-splitting of canonical URIs. -/

theorem charDigit_small : ∀ d, d < 10 → charDigit (Char.ofNat (48 + d)) = some d := by
  decide

theorem isDig_small : ∀ d, d < 10 → isDig (Char.ofNat (48 + d)) = true := by
  decide

theorem natDec_head (n : Nat) : ∃ c cs, natDec n = c :: cs ∧ isDig c = true := by
  induction n using Nat.strong_induction_on with
  | _ n ih =>
    rw [natDec]
    by_cases h : n < 10
    · exact ⟨Char.ofNat (48 + n), [], by simp [h], isDig_small n h⟩
    · obtain ⟨c, cs, heq, hdig⟩ := ih (n / 10) (Nat.div_lt_self (by omega) (by omega))
      exact ⟨c, cs ++ [Char.ofNat (48 + n % 10)], by simp [h, heq], hdig⟩

theorem natDec_digits (n : Nat) : ∀ c ∈ natDec n, isDig c = true := by
  induction n using Nat.strong_induction_on with
  | _ n ih =>
    rw [natDec]
    by_cases h : n < 10
    · simpa [h] using isDig_small n h
    · intro c hc
      simp only [h, dite_false, List.mem_append, List.mem_singleton] at hc
      rcases hc with hc | hc
      · exact ih (n / 10) (Nat.div_lt_self (by omega) (by omega)) c hc
      · subst hc
        exact isDig_small (n % 10) (Nat.mod_lt _ (by omega))

theorem digitsAux_snoc (L : List Char) (acc : Nat) (c : Char) :
    digitsAux acc (L ++ [c]) =
      (digitsAux acc L).bind fun x => (charDigit c).map fun d => 10 * x + d := by
  induction L generalizing acc with
  | nil => cases h : charDigit c <;> simp [digitsAux, h]
  | cons hd tl ih => cases h : charDigit hd <;> simp [digitsAux, h, ih]

theorem digitsAux_natDec (n : Nat) : digitsAux 0 (natDec n) = some n := by
  induction n using Nat.strong_induction_on with
  | _ n ih =>
    rw [natDec]
    by_cases h : n < 10
    · simp [h, digitsAux, charDigit_small n h]
    · rw [dif_neg h, digitsAux_snoc,
        ih (n / 10) (Nat.div_lt_self (by omega) (by omega)),
        charDigit_small (n % 10) (Nat.mod_lt _ (by omega))]
      simp only [Option.some_bind, Option.map_some', Option.some.injEq]
      omega

theorem digitsToNat_natDec (n : Nat) : digitsToNat (natDec n) = some n := by
  obtain ⟨c, cs, heq, -⟩ := natDec_head n
  rw [heq]
  show digitsAux 0 (c :: cs) = some n
  rw [← heq]
  exact digitsAux_natDec n

theorem natDec_ne_nil (n : Nat) : natDec n ≠ [] := by
  obtain ⟨c, cs, heq, -⟩ := natDec_head n
  simp [heq]

theorem intDec_ne_nil (i : Int) : intDecChars i ≠ [] := by
  unfold intDecChars
  by_cases h : i < 0 <;> simp [h, natDec_ne_nil]

theorem isDig_ne_slash {c : Char} (h : isDig c = true) : ¬ c = '/' := by
  intro hc
  subst hc
  simp [isDig] at h

theorem intDec_no_slash (i : Int) : '/' ∉ intDecChars i := by
  unfold intDecChars
  by_cases h : i < 0 <;> simp only [h, if_true, if_false, List.mem_cons]
  · rintro (hc | hm)
    · exact absurd hc.symm (by decide)
    · exact isDig_ne_slash (natDec_digits _ '/' hm) rfl
  · intro hm
    exact isDig_ne_slash (natDec_digits _ '/' hm) rfl

theorem parsePyIntChars_intDec (i : Int) : parsePyIntChars (intDecChars i) = some i := by
  unfold intDecChars
  by_cases h : i < 0
  · rw [if_pos h]
    show parsePyIntChars ('-' :: natDec i.natAbs) = some i
    rw [parsePyIntChars, if_pos rfl, digitsToNat_natDec]
    simp only [Option.map_some', Option.some.injEq]
    omega
  · rw [if_neg h]
    obtain ⟨c, cs, heq, hdig⟩ := natDec_head i.toNat
    have hm : ¬ c = '-' := by
      intro hc; subst hc; simp [isDig] at hdig
    have hp : ¬ c = '+' := by
      intro hc; subst hc; simp [isDig] at hdig
    rw [heq, parsePyIntChars, if_neg hm, if_neg hp, ← heq, digitsToNat_natDec]
    simp only [Option.map_some', Option.some.injEq]
    omega

theorem splitSlash_no_slash (a : List Char) (h : '/' ∉ a) : splitSlash a = [a] := by
  induction a with
  | nil => rfl
  | cons c rest ih =>
    have hc : ¬ c = '/' := by
      intro hh; exact h (by simp [hh])
    have hr := ih fun hm => h (List.mem_cons_of_mem _ hm)
    simp [splitSlash, hc, hr]

theorem splitSlash_append (a b : List Char) (h : '/' ∉ a) :
    splitSlash (a ++ '/' :: b) = a :: splitSlash b := by
  induction a with
  | nil => simp [splitSlash]
  | cons c rest ih =>
    have hc : ¬ c = '/' := by
      intro hh; exact h (by simp [hh])
    have hr := ih fun hm => h (List.mem_cons_of_mem _ hm)
    simp [splitSlash, hc, hr]

theorem stripSlashes_eq_of_ends (c d : Char) (mid : List Char)
    (hc : ¬ c = '/') (hd : ¬ d = '/') :
    stripSlashes (c :: mid ++ [d]) = c :: mid ++ [d] := by
  simp [stripSlashes, hc, hd]

theorem stripSlashes_decor (c d : Char) (mid : List Char)
    (hc : ¬ c = '/') (hd : ¬ d = '/') :
    stripSlashes ('/' :: '/' :: (c :: mid ++ [d]) ++ ['/']) = c :: mid ++ [d] := by
  simp [stripSlashes, hc, hd]

theorem splitSlash_uriChars (a b c : Int) :
    splitSlash (uriChars a b c) = [intDecChars a, intDecChars b, intDecChars c] := by
  unfold uriChars
  rw [splitSlash_append _ _ (intDec_no_slash a), splitSlash_append _ _ (intDec_no_slash b),
    splitSlash_no_slash _ (intDec_no_slash c)]

theorem uriChars_decomp (a b c : Int) :
    ∃ c0 mid d, uriChars a b c = c0 :: mid ++ [d] ∧ ¬ c0 = '/' ∧ ¬ d = '/' := by
  obtain ⟨c0, a2, ha⟩ : ∃ c0 a2, intDecChars a = c0 :: a2 := by
    cases hA : intDecChars a with
    | nil => exact absurd hA (intDec_ne_nil a)
    | cons x xs => exact ⟨x, xs, rfl⟩
  obtain hC | ⟨L, d, hC⟩ := (intDecChars c).eq_nil_or_concat
  · exact absurd hC (intDec_ne_nil c)
  refine ⟨c0, a2 ++ '/' :: (intDecChars b ++ '/' :: L), d, ?_, ?_, ?_⟩
  · simp [uriChars, ha, hC]
  · intro h
    exact intDec_no_slash a (by rw [ha, h]; exact List.mem_cons_self _ _)
  · intro h
    exact intDec_no_slash c (by rw [hC, h]; simp)

theorem stripSlashes_uriChars (a b c : Int) :
    stripSlashes (uriChars a b c) = uriChars a b c := by
  obtain ⟨c0, mid, d, hform, hc0, hd⟩ := uriChars_decomp a b c
  rw [hform]
  exact stripSlashes_eq_of_ends _ _ _ hc0 hd

theorem stripSlashes_uriChars_decor (a b c : Int) :
    stripSlashes ('/' :: '/' :: uriChars a b c ++ ['/']) = uriChars a b c := by
  obtain ⟨c0, mid, d, hform, hc0, hd⟩ := uriChars_decomp a b c
  rw [hform]
  exact stripSlashes_decor _ _ _ hc0 hd

theorem mapPyInt_uriChars (a b c : Int) :
    mapPyInt [intDecChars a, intDecChars b, intDecChars c] = some [a, b, c] := by
  simp [mapPyInt, parsePyIntChars_intDec]

theorem parseUri_uriChars (a b c : Int) :
    parseUri (String.mk (uriChars a b c)) = Except.ok (a, b, c) := by
  unfold parseUri
  rw [show (String.mk (uriChars a b c)).data = uriChars a b c from rfl,
    stripSlashes_uriChars, splitSlash_uriChars, mapPyInt_uriChars]

theorem parseUri_uriChars_decor (a b c : Int) :
    parseUri (String.mk ('/' :: '/' :: uriChars a b c ++ ['/'])) = Except.ok (a, b, c) := by
  unfold parseUri
  rw [show (String.mk ('/' :: '/' :: uriChars a b c ++ ['/'])).data =
      '/' :: '/' :: uriChars a b c ++ ['/'] from rfl,
    stripSlashes_uriChars_decor, splitSlash_uriChars, mapPyInt_uriChars]

theorem hasKey_append_singleton {β : Type} (l : List (Int × β)) (k : Int) (v : β) :
    hasKey (l ++ [(k, v)]) k = true := by
  induction l with
  | nil => simp [hasKey, alookup]
  | cons p rest ih =>
    obtain ⟨a, b⟩ := p
    by_cases h : k = a
    · simp [hasKey, alookup, h]
    · simpa [hasKey, alookup, h] using ih

theorem stampRes_data (oid iid : Int) (r : Resource)
    (h : (stampRes oid iid r).isData = true) :
    (stampRes oid iid r).objectId = some oid ∧
      (stampRes oid iid r).instanceId = some iid := by
  cases r <;> simp_all [stampRes, Resource.isData, Resource.objectId, Resource.instanceId]

theorem coerce_typeMatches {k : Lwm2mDataType} {v c : PyVal} (h : coerce k v = some c) :
    typeMatches k c = true := by
  cases k <;> cases v <;>
      simp only [coerce, Option.map_eq_some', Option.some.injEq] at h <;>
      (try split at h) <;>
      first
      | (rcases h with ⟨a, -, rfl⟩; rfl)
      | (rcases h with rfl; rfl)
      | (simp only [Option.some.injEq] at h; rcases h with rfl; rfl)
      | simp at h

/-! Claim theorems. -/

/-- Claim C1, counterexample.  The claim says every registered (addressed)
data resource notifies on a changed assignment.  Here is a resource whose
address has been stamped (`object_id = some 0`, `instance_id = some 1` —
object id 0 is the LwM2M Security object, registered by the shipped
application), whose candidate coerces to a value different from the stored
one, and yet the setter emits no notification, because its guard
`self.instance_id and self.object_id` tests Python truthiness and the
integer 0 is falsy. -/
theorem c1_counterexample :
    value_setter ⟨some 0, some 1, 5, Lwm2mDataType.tInt, PyVal.vint 1⟩ (PyVal.vint 2) =
      (⟨some 0, some 1, 5, Lwm2mDataType.tInt, PyVal.vint 2⟩, none, [])
  ∧ coerce Lwm2mDataType.tInt (PyVal.vint 2) = some (PyVal.vint 2)
  ∧ (PyVal.vint 2 : PyVal) ≠ PyVal.vint 1 := by
  decide

/-- Claim C1, amended.  For a data resource whose stamped `object_id` and
`instance_id` are both truthy (present and non-zero), assigning a
candidate that coerces to a different value emits exactly one change
notification and assigning one that coerces to the same value emits none;
assigning any coercible value before the address is stamped (either id
still `None`) emits none and raises no error. -/
theorem c1_amended_notify (r : DataResource) (v c : PyVal) (oid iid : Int)
    (hc : coerce r.data_type v = some c)
    (ho : r.object_id = some oid) (hi : r.instance_id = some iid)
    (hoz : oid ≠ 0) (hiz : iid ≠ 0) :
    (c ≠ r.value → value_setter r v = ({ r with value := c }, none, [(oid, iid, r.id)]))
  ∧ (c = r.value → value_setter r v = ({ r with value := c }, none, []))
  ∧ (∀ r2 : DataResource, (r2.object_id = none ∨ r2.instance_id = none) →
      ∀ v2 c2, coerce r2.data_type v2 = some c2 →
        value_setter r2 v2 = ({ r2 with value := c2 }, none, [])) := by
  refine ⟨fun hne => ?_, fun heqv => ?_, fun r2 hz v2 c2 hc2 => ?_⟩
  · unfold value_setter
    rw [hc]
    simp [ho, hi, truthyId, hne, hoz, hiz]
  · unfold value_setter
    rw [hc]
    simp [heqv]
  · unfold value_setter
    rw [hc2]
    rcases hz with hz | hz <;> simp [hz, truthyId]

/-- Claim C1, witness: a stamped non-zero address notifies exactly once on
a changed assignment. -/
theorem c1_witness :
    value_setter ⟨some 3323, some 1, 5602, Lwm2mDataType.tInt, PyVal.vint 1⟩ (PyVal.vint 2) =
      (⟨some 3323, some 1, 5602, Lwm2mDataType.tInt, PyVal.vint 2⟩, none, [(3323, 1, 5602)]) :=
  (c1_amended_notify ⟨some 3323, some 1, 5602, Lwm2mDataType.tInt, PyVal.vint 1⟩
    (PyVal.vint 2) (PyVal.vint 2) 3323 1 rfl rfl rfl (by decide) (by decide)).1 (by decide)

/-- Claim C2, counterexample.  A batch whose second element repeats the id
of its first element fails with `KeyError` (`DuplicateId`) but does NOT
leave the instance's resource map as it was before the call: the first
element stays registered, so `register` is not atomic per call. -/
theorem c2_counterexample :
    (LwInstance.register ⟨7, []⟩
        [RegCandidate.res (Resource.readR ⟨none, none, 1, Lwm2mDataType.tInt, PyVal.vint 0⟩),
         RegCandidate.res (Resource.writeR ⟨none, none, 1, Lwm2mDataType.tInt, PyVal.vint 9⟩)]).2
      = some PyError.keyError
  ∧ (LwInstance.register ⟨7, []⟩
        [RegCandidate.res (Resource.readR ⟨none, none, 1, Lwm2mDataType.tInt, PyVal.vint 0⟩),
         RegCandidate.res (Resource.writeR ⟨none, none, 1, Lwm2mDataType.tInt, PyVal.vint 9⟩)]).1
      ≠ (⟨7, []⟩ : LwInstance) := by
  decide

/-- Claim C2, amended.  `Instance.register` validates and inserts the batch
one element at a time: an unrecognized element raises `InvalidKind`
(`TypeError`) and a duplicate id raises `DuplicateId` (`KeyError`), each
aborting the rest of the batch while keeping the elements already inserted
in the same call (so only a failure at the first element leaves the
instance unchanged); and after registering a resource, a second call
registering a resource with the same id fails with `DuplicateId`, leaving
the instance containing exactly the first resource. -/
theorem c2_amended_register (inst : LwInstance) (r r2 : Resource) (rest : List RegCandidate)
    (hfresh : hasKey inst.resources r.rid = false) (hsame : r2.rid = r.rid) :
    (LwInstance.register inst (RegCandidate.notRes :: rest) = (inst, some PyError.typeError))
  ∧ (∀ rdup : Resource, hasKey inst.resources rdup.rid = true →
      LwInstance.register inst (RegCandidate.res rdup :: rest) = (inst, some PyError.keyError))
  ∧ (LwInstance.register inst (RegCandidate.res r :: rest) =
      LwInstance.register { inst with resources := inst.resources ++ [(r.rid, r)] } rest)
  ∧ (LwInstance.register inst [RegCandidate.res r] =
      ({ inst with resources := inst.resources ++ [(r.rid, r)] }, none))
  ∧ (LwInstance.register { inst with resources := inst.resources ++ [(r.rid, r)] }
        [RegCandidate.res r2] =
      ({ inst with resources := inst.resources ++ [(r.rid, r)] }, some PyError.keyError)) := by
  refine ⟨rfl, fun rdup hdup => ?_, ?_, ?_, ?_⟩
  · unfold LwInstance.register
    simp [hdup]
  · conv_lhs => rw [LwInstance.register]
    simp [hfresh]
  · simp [LwInstance.register, hfresh]
  · simp [LwInstance.register, hsame, hasKey_append_singleton]

/-- Claim C2, witness: registering resource id 1 and then a second resource
with id 1 in a second call fails and retains exactly the first. -/
theorem c2_witness :
    LwInstance.register
        ⟨7, [(1, Resource.readR ⟨none, none, 1, Lwm2mDataType.tInt, PyVal.vint 0⟩)]⟩
        [RegCandidate.res (Resource.writeR ⟨none, none, 1, Lwm2mDataType.tInt, PyVal.vint 9⟩)] =
      (⟨7, [(1, Resource.readR ⟨none, none, 1, Lwm2mDataType.tInt, PyVal.vint 0⟩)]⟩,
       some PyError.keyError) :=
  (c2_amended_register ⟨7, []⟩
    (Resource.readR ⟨none, none, 1, Lwm2mDataType.tInt, PyVal.vint 0⟩)
    (Resource.writeR ⟨none, none, 1, Lwm2mDataType.tInt, PyVal.vint 9⟩)
    [] (by decide) (by decide)).2.2.2.2

/-- Claim C3, counterexample.  A successful `Object.register` call does
not stamp the contained data resource: the unstamped instance is inserted
as is, its resource's `object_id` still `None` (stamping it would have
changed it, as the last conjunct shows).  Stamping only happens in
`Client._register` and in `Object.create_callback`. -/
theorem c3_counterexample :
    (LwObject.register ⟨9, "", none, []⟩ [ObjRegCandidate.inst (fixFactory 2)]).2 = none
  ∧ (LwObject.register ⟨9, "", none, []⟩ [ObjRegCandidate.inst (fixFactory 2)]).1.instances =
      [(2, fixFactory 2)]
  ∧ Resource.objectId (Resource.readR ⟨none, none, 4, Lwm2mDataType.tInt, PyVal.vint 7⟩) = none
  ∧ stampInstance 9 2 (fixFactory 2) ≠ fixFactory 2 := by
  refine ⟨rfl, rfl, rfl, by decide⟩

/-- Claim C3, amended.  `Object.register` performs the same per-element
duplicate-id checking as `Instance.register` (`InvalidKind` for a
non-Instance, `DuplicateId` for a repeated instance id, earlier insertions
persisting) but performs no address stamping — the instance is inserted
unchanged.  Address stamping is a side effect of `Client._register`, which
on success stamps every contained data resource with the object id and its
owning instance's id. -/
theorem c3_amended_register_stamp (obj : LwObject) (inst : LwInstance)
    (rest : List ObjRegCandidate) (c : Client) (o2 : LwObject)
    (hfresh : hasKey obj.instances inst.id = false)
    (hofresh : hasKey c.my_objects o2.id = false) :
    (LwObject.register obj (ObjRegCandidate.notInst :: rest) = (obj, some PyError.typeError))
  ∧ (∀ idup : LwInstance, hasKey obj.instances idup.id = true →
      LwObject.register obj (ObjRegCandidate.inst idup :: rest) = (obj, some PyError.keyError))
  ∧ (LwObject.register obj (ObjRegCandidate.inst inst :: rest) =
      LwObject.register { obj with instances := obj.instances ++ [(inst.id, inst)] } rest)
  ∧ (Client.reg c [ClientRegCandidate.obj o2] =
      ({ c with my_objects := c.my_objects ++ [(o2.id, stampObject o2)] }, none))
  ∧ (∀ iid inst2, (iid, inst2) ∈ (stampObject o2).instances →
      ∀ rid r, (rid, r) ∈ inst2.resources → r.isData = true →
        r.objectId = some o2.id ∧ r.instanceId = some inst2.id) := by
  refine ⟨rfl, fun idup hdup => ?_, ?_, ?_, ?_⟩
  · unfold LwObject.register
    simp [hdup]
  · conv_lhs => rw [LwObject.register]
    simp [hfresh]
  · simp [Client.reg, hofresh]
  · intro iid inst2 hmem rid r hr hdata
    unfold stampObject at hmem
    simp only [List.mem_map] at hmem
    obtain ⟨p, hp, heq⟩ := hmem
    have h2 : inst2 = stampInstance o2.id p.2.id p.2 := by
      have := congrArg Prod.snd heq
      simpa using this.symm
    subst h2
    unfold stampInstance at hr
    simp only [List.mem_map] at hr
    obtain ⟨q, hq, heqq⟩ := hr
    have h3 : r = stampRes o2.id p.2.id q.2 := by
      have := congrArg Prod.snd heqq
      simpa using this.symm
    subst h3
    have hids : (stampInstance o2.id p.2.id p.2).id = p.2.id := rfl
    rw [show ({ p.2 with
        resources := p.2.resources.map fun p2 => (p2.1, stampRes o2.id p.2.id p2.2) } :
        LwInstance).id = p.2.id from rfl]
    exact stampRes_data _ _ _ hdata

/-- Claim C3, witness: registering an object with one instance holding one
unstamped data resource into the client stamps it with
`(object_id, instance_id) = (9, 2)`. -/
theorem c3_witness :
    Client.reg ⟨[]⟩ [ClientRegCandidate.obj fixRegObj] =
      (⟨[(9, stampObject fixRegObj)]⟩, none) :=
  (c3_amended_register_stamp ⟨0, "", none, []⟩ ⟨0, []⟩ [] ⟨[]⟩ fixRegObj
    (by decide) (by decide)).2.2.2.1

/-- Claim C4 (confirmed).  A candidate that cannot be coerced to the
resource's fixed kind makes the value setter raise `TypeError`
(`TypeMismatch`) with the resource state returned untouched — the prior
stored value intact; and every successful coercion stores a value whose
runtime type matches the kind, so the well-typedness invariant of the
cell is preserved in both cases. -/
theorem c4_type_mismatch (r : DataResource) (v : PyVal) :
    (coerce r.data_type v = none →
      value_setter r v = (r, some PyError.typeError, []))
  ∧ (∀ c, coerce r.data_type v = some c →
      typeMatches r.data_type c = true ∧ (value_setter r v).1 = { r with value := c }) := by
  constructor
  · intro h
    unfold value_setter
    rw [h]
  · intro c h
    refine ⟨coerce_typeMatches h, ?_⟩
    unfold value_setter
    rw [h]

/-- Claim C4, witness: assigning the string `"X"` to an integer resource
raises `TypeError` and leaves the stored value `100` intact. -/
theorem c4_witness :
    value_setter ⟨none, none, 0, Lwm2mDataType.tInt, PyVal.vint 100⟩ (PyVal.vstr "X") =
      (⟨none, none, 0, Lwm2mDataType.tInt, PyVal.vint 100⟩, some PyError.typeError, []) :=
  (c4_type_mismatch ⟨none, none, 0, Lwm2mDataType.tInt, PyVal.vint 100⟩ (PyVal.vstr "X")).1
    (by decide)

/-- Claim C5 (confirmed).  `get_resource` parses a slash-delimited
three-integer URI, tolerating extra leading and trailing slashes: the
canonical URI of any registered object/instance/resource triple resolves
to that resource; a well-formed URI whose object, instance, or resource
segment is absent raises `KeyError` (`NotFound`); and a malformed string
such as `"bad"` raises `ValueError` (`InvalidAddress`). -/
theorem c5_resolve_uri (cl : Client) (oid iid rid : Int) (obj : LwObject)
    (inst : LwInstance) (r : Resource)
    (h1 : alookup cl.my_objects oid = some obj)
    (h2 : alookup obj.instances iid = some inst)
    (h3 : alookup inst.resources rid = some r) :
    (Client.get_resource cl (String.mk (uriChars oid iid rid)) = .ok r)
  ∧ (Client.get_resource cl (String.mk ('/' :: '/' :: uriChars oid iid rid ++ ['/'])) = .ok r)
  ∧ (∀ rid2, alookup inst.resources rid2 = none →
      Client.get_resource cl (String.mk (uriChars oid iid rid2)) = .error PyError.keyError)
  ∧ (∀ iid2, alookup obj.instances iid2 = none →
      Client.get_resource cl (String.mk (uriChars oid iid2 rid)) = .error PyError.keyError)
  ∧ (∀ oid2, alookup cl.my_objects oid2 = none →
      Client.get_resource cl (String.mk (uriChars oid2 iid rid)) = .error PyError.keyError)
  ∧ (Client.get_resource cl "bad" = .error PyError.valueError) := by
  refine ⟨?_, ?_, fun rid2 hr2 => ?_, fun iid2 hi2 => ?_, fun oid2 ho2 => ?_, rfl⟩
  · unfold Client.get_resource
    rw [parseUri_uriChars]
    simp [h1, h2, h3]
  · unfold Client.get_resource
    rw [parseUri_uriChars_decor]
    simp [h1, h2, h3]
  · unfold Client.get_resource
    rw [parseUri_uriChars]
    simp [h1, h2, hr2]
  · unfold Client.get_resource
    rw [parseUri_uriChars]
    simp [h1, hi2]
  · unfold Client.get_resource
    rw [parseUri_uriChars]
    simp [ho2]

/-- Claim C5, witness: with object 1 → instance 1 → resource 0 registered,
`"1/1/0"` (built from the canonical digit rendering) resolves to that
resource. -/
theorem c5_witness :
    Client.get_resource fixClient (String.mk (uriChars 1 1 0)) =
      .ok (Resource.readR ⟨some 1, some 1, 0, Lwm2mDataType.tInt, PyVal.vint 123⟩) :=
  (c5_resolve_uri fixClient 1 1 0 _ _ _ rfl rfl rfl).1

/-- Claim C6 (confirmed).  For an object with a default-instance factory
(and no custom create handler) and an instance id not yet present,
`create_callback` builds the instance with the factory, registers it into
the object, stamps its data resources with `(object_id, instance_id)`, and
returns a snapshot listing exactly the instance's resources; called with
an id that is already present it returns `None` ("no instance created")
and leaves the instance map unchanged.  (The registration step runs inside
`try/except: pass`, tolerating a handler that already registered the
instance itself.) -/
theorem c6_create_callback (obj : LwObject) (f : Int → LwInstance) (iid : Int)
    (hf : obj.default_instance_cls = some f)
    (habs : hasKey obj.instances iid = false)
    (hid : (f iid).id = iid) :
    (LwObject.create_callback obj iid =
      ({ obj with instances := obj.instances ++ [(iid, stampInstance obj.id iid (f iid))] },
       some (wakaamaResources (stampInstance obj.id iid (f iid)))))
  ∧ ((wakaamaResources (stampInstance obj.id iid (f iid))).map Prod.fst =
      (f iid).resources.map Prod.fst)
  ∧ (∀ rid r, (rid, r) ∈ (stampInstance obj.id iid (f iid)).resources →
      r.isData = true → r.objectId = some obj.id ∧ r.instanceId = some iid)
  ∧ (∀ obj2 : LwObject, ∀ j, hasKey obj2.instances j = true →
      LwObject.create_callback obj2 j = (obj2, none)) := by
  refine ⟨?_, ?_, ?_, fun obj2 j hj => ?_⟩
  · unfold LwObject.create_callback
    simp [habs, hf, hid]
  · simp [wakaamaResources, stampInstance]
  · intro rid r hmem hdata
    unfold stampInstance at hmem
    simp only [List.mem_map] at hmem
    obtain ⟨q, hq, heqq⟩ := hmem
    have h3 : r = stampRes obj.id iid q.2 := by
      have := congrArg Prod.snd heqq
      simpa using this.symm
    subst h3
    exact stampRes_data _ _ _ hdata
  · unfold LwObject.create_callback
    simp [hj]

/-- Claim C6, witness: creating instance 5 on an object with a
default-instance factory registers the stamped instance and returns its
snapshot; the snapshot and the new map entry are spelled out. -/
theorem c6_witness :
    LwObject.create_callback fixObj 5 =
      ({ fixObj with instances := fixObj.instances ++ [(5, stampInstance fixObj.id 5 (fixFactory 5))] },
       some (wakaamaResources (stampInstance fixObj.id 5 (fixFactory 5)))) :=
  (c6_create_callback fixObj fixFactory 5 rfl (by decide) rfl).1

/-- Claim C7 (confirmed).  `_write_callback` commits the candidate into the
value cell through the typed setter when no user-supplied write hook
exists or when the hook accepts; when the hook rejects, the resource state
is unchanged, no notification is emitted, and no error is raised — the
rejection is swallowed silently. -/
theorem c7_write_callback_policy (r : DataResource) (h : PyVal → Bool) (v : PyVal) :
    (write_callback r none v = value_setter r v)
  ∧ (h v = true → write_callback r (some h) v = value_setter r v)
  ∧ (h v = false → write_callback r (some h) v = (r, none, [])) := by
  refine ⟨rfl, fun ht => ?_, fun hfv => ?_⟩
  · simp [write_callback, ht]
  · simp [write_callback, hfv]

/-- Claim C7, witness: a rejecting hook leaves the stored value unchanged
with no error and no notification. -/
theorem c7_witness :
    write_callback ⟨some 3, some 1, 7, Lwm2mDataType.tInt, PyVal.vint 5⟩ (some rejectHook)
        (PyVal.vint 6) =
      (⟨some 3, some 1, 7, Lwm2mDataType.tInt, PyVal.vint 5⟩, none, []) :=
  (c7_write_callback_policy ⟨some 3, some 1, 7, Lwm2mDataType.tInt, PyVal.vint 5⟩
    rejectHook (PyVal.vint 6)).2.2 (by decide)

/-- Claim C8 (confirmed).  `_read_callback` with a user-supplied read hook
invokes the hook, stores its returned value into the value cell through
the typed setter — so the store goes through the same change
detection/notification path as any assignment — and returns the cell's
(new) current value; with no hook it returns the stored value with the
state unchanged. -/
theorem c8_read_callback_hook (r : DataResource) (h : DataResource → PyVal) :
    (read_callback r none = (r, none, [], some r.value))
  ∧ (∀ c, coerce r.data_type (h r) = some c →
      read_callback r (some h) =
        ({ r with value := c }, none, (value_setter r (h r)).2.2, some c)) := by
  constructor
  · rfl
  · intro c hc
    have hv : value_setter r (h r) = ({ r with value := c }, none, (value_setter r (h r)).2.2) := by
      unfold value_setter
      rw [hc]
    simp only [read_callback]
    rw [hv]

/-- Claim C8, witness: a hook returning 42 on an addressed integer
resource stores 42 through the setter (emitting the change notification)
and returns 42. -/
theorem c8_witness :
    read_callback ⟨some 3, some 1, 7, Lwm2mDataType.tInt, PyVal.vint 0⟩ (some answerHook) =
      (⟨some 3, some 1, 7, Lwm2mDataType.tInt, PyVal.vint 42⟩, none, [(3, 1, 7)],
       some (PyVal.vint 42)) := by
  rw [(c8_read_callback_hook ⟨some 3, some 1, 7, Lwm2mDataType.tInt, PyVal.vint 0⟩
    answerHook).2 (PyVal.vint 42) rfl]
  decide

/-- Claim C9 (confirmed).  The setter's notification guard tests Python
truthiness of the stamped ids, not their presence: a stamped address with
`object_id = 0` or `instance_id = 0` never notifies even on a changed
assignment, and a notification is emitted only when both ids are present
and non-zero. -/
theorem c9_truthiness_guard (r : DataResource) (v c : PyVal)
    (hc : coerce r.data_type v = some c)
    (hz : r.object_id = some 0 ∨ r.instance_id = some 0) :
    (value_setter r v = ({ r with value := c }, none, []))
  ∧ (∀ r2 v2, (value_setter r2 v2).2.2 ≠ [] →
      truthyId r2.object_id = true ∧ truthyId r2.instance_id = true) := by
  constructor
  · unfold value_setter
    rw [hc]
    rcases hz with hz | hz <;> simp [hz, truthyId]
  · intro r2 v2 hne
    unfold value_setter at hne
    cases hcc : coerce r2.data_type v2 with
    | none => simp [hcc] at hne
    | some c2 =>
      rw [hcc] at hne
      by_cases hcond :
          (decide (c2 ≠ r2.value) && truthyId r2.instance_id && truthyId r2.object_id) = true
      · rw [Bool.and_eq_true, Bool.and_eq_true] at hcond
        exact ⟨hcond.2, hcond.1.2⟩
      · exfalso
        apply hne
        show (if (decide (c2 ≠ r2.value) && truthyId r2.instance_id && truthyId r2.object_id)
              = true
            then [(r2.object_id.getD 0, r2.instance_id.getD 0, r2.id)]
            else ([] : List Notif)) = ([] : List Notif)
        exact if_neg hcond

/-- Claim C9, witness: a resource stamped with `object_id = 0` emits no
notification on a changed assignment. -/
theorem c9_witness :
    value_setter ⟨some 0, some 1, 5, Lwm2mDataType.tBool, PyVal.vbool false⟩ (PyVal.vbool true) =
      (⟨some 0, some 1, 5, Lwm2mDataType.tBool, PyVal.vbool true⟩, none, []) :=
  (c9_truthiness_guard ⟨some 0, some 1, 5, Lwm2mDataType.tBool, PyVal.vbool false⟩
    (PyVal.vbool true) (PyVal.vbool true) rfl (Or.inl rfl)).1

/-- Claim C10 (confirmed).  `DataResource.__new__` rejects direct
instantiation of the abstract base class with `TypeError`, producing no
resource; instantiation through any of the concrete subclasses is
unaffected by the guard — it succeeds exactly when the initial value
coerces to the data type, and fails with the init-time `TypeError`
otherwise. -/
theorem c10_base_class_guard (rid : Int) (dt : Lwm2mDataType) (init : PyVal) :
    (DataResource.new ResCls.dataResource rid dt init = .error PyError.typeError)
  ∧ (∀ cls, cls ≠ ResCls.dataResource →
      (∀ c, coerce dt init = some c →
        DataResource.new cls rid dt init = .ok (cls, ⟨none, none, rid, dt, c⟩))
    ∧ (coerce dt init = none →
        DataResource.new cls rid dt init = .error PyError.typeError)) := by
  refine ⟨rfl, fun cls hcls => ⟨fun c hc => ?_, fun hc => ?_⟩⟩
  · simp [DataResource.new, value_setter, hcls, hc]
  · simp [DataResource.new, value_setter, hcls, hc]

/-- Claim C10, witness: direct base-class instantiation fails while a
`ReadResource` with the same arguments is produced. -/
theorem c10_witness :
    DataResource.new ResCls.dataResource 0 Lwm2mDataType.tStr (PyVal.vstr "default_string") =
      .error PyError.typeError
  ∧ DataResource.new ResCls.readResource 0 Lwm2mDataType.tStr (PyVal.vstr "default_string") =
      .ok (ResCls.readResource, ⟨none, none, 0, Lwm2mDataType.tStr, PyVal.vstr "default_string"⟩) :=
  ⟨(c10_base_class_guard 0 Lwm2mDataType.tStr (PyVal.vstr "default_string")).1,
   ((c10_base_class_guard 0 Lwm2mDataType.tStr (PyVal.vstr "default_string")).2
     ResCls.readResource (by decide)).1 (PyVal.vstr "default_string") rfl⟩

end Lwm2m
